import Mathlib

/-!
# Verification of the WebFitTracker derived-nutrition and fasting-timer engine

A shallow embedding, in Lean 4, of the calculation core of the WebFitTracker
repository: the BMR/macro pipeline (`services/nutritionCalculator.ts`), the
refeed-day effective-goal computation (`FoodLogger`'s `determineEffectiveGoals`),
and the intermittent-fasting timer state machine (`components/IFTimerDisplay.tsx`).

Modelling conventions:
* JavaScript `number` values are modelled as `ℚ` (all arithmetic in the embedded
  code paths is exact decimal/integer arithmetic, far below the 2^53 range where
  IEEE doubles behave like the rationals they denote).
* `Math.round` is Mathlib's `round` (`⌊x + 1/2⌋`), which agrees with JavaScript's
  round-half-towards-positive-infinity on every input, negative halves included.
* ISO timestamp strings are modelled by their epoch-millisecond value (`ℤ`),
  the value `new Date(s).getTime()` recovers; optional fields are `Option`.
* TypeScript string enums are their literal string values at runtime; where a
  claim is about unrecognized runtime values (`calculateBMR`) the field is
  modelled as `String`.
-/

/-! ## JavaScript string primitives used by the embedded code -/

/-- `leadsWith h n`: the character list `n` occurs at the head of `h`. -/
def leadsWith : List Char → List Char → Bool
  | _, [] => true
  | [], _ :: _ => false
  | a :: as, b :: bs => a == b && leadsWith as bs

/-- `containsSeq h n`: the character list `n` occurs contiguously inside `h`. -/
def containsSeq : List Char → List Char → Bool
  | [], n => n.isEmpty
  | h :: t, n => leadsWith (h :: t) n || containsSeq t n

/-- JavaScript `String.prototype.includes(pat)`. -/
def strIncludes (s pat : String) : Bool := containsSeq s.data pat.data

/-- JavaScript `String.prototype.toLowerCase()` on one character. The embedded
code only lowercases ASCII plan descriptions, where `toLowerCase` is the
A–Z → a–z map. -/
def jsLowerChar (c : Char) : Char :=
  if 'A' ≤ c ∧ c ≤ 'Z' then Char.ofNat (c.toNat + 32) else c

/-- JavaScript `String.prototype.toLowerCase()` (ASCII range). -/
def jsToLower (s : String) : String := ⟨s.data.map jsLowerChar⟩

/-- Digit run to a natural number, most significant first. -/
def digitsToNat (ds : List Char) : Nat :=
  ds.foldl (fun acc c => acc * 10 + (c.toNat - '0'.toNat)) 0

/-- JavaScript `parseInt(s)` (radix-10 path): skip leading whitespace, read an
optional sign, then the longest leading digit run; `none` models `NaN` (no
digits). The `0x`-hexadecimal form of `parseInt` is not modelled: the custom-hour
inputs this program feeds it are decimal. -/
def parseIntJS (s : String) : Option Int :=
  let cs := s.data.dropWhile Char.isWhitespace
  let signAndRest : Int × List Char :=
    match cs with
    | '-' :: r => (-1, r)
    | '+' :: r => (1, r)
    | r => (1, r)
  let digits := signAndRest.2.takeWhile Char.isDigit
  if digits.isEmpty then none
  else some (signAndRest.1 * (digitsToNat digits : Int))

/-! ## Data model (`types.ts`) -/

/-- `MacroNutrients` (`types.ts`): protein/carbs/fat grams and calories. -/
structure MacroNutrients where
  protein : ℚ
  carbs : ℚ
  fat : ℚ
  calories : ℚ
  deriving DecidableEq, Repr

/-- `PersonalDetails` (`types.ts`). `sex` is a TypeScript string enum, i.e. a
string at runtime (`"Male"` / `"Female"` for the recognized values). -/
structure PersonalDetails where
  age : ℚ
  sex : String
  heightCm : ℚ
  currentWeightKg : ℚ
  deriving DecidableEq, Repr

/-- `UserGoals` (`types.ts`). -/
structure UserGoals where
  targetWeightKg : ℚ
  targetDate : String
  planDescription : String
  deriving DecidableEq, Repr

/-- `FoodEntry` (`types.ts`); the optional metadata fields (`photoIdentifier`,
`notes`, `apiSource`, `aiAssisted`) play no part in any computation and are
omitted. -/
structure FoodEntry where
  id : String
  name : String
  calories : ℚ
  protein : ℚ
  carbs : ℚ
  fat : ℚ
  servingSize : String
  quantity : ℚ
  loggedAt : String
  mealTime : String
  deriving DecidableEq, Repr

/-! ## Constants (`constants.ts`) -/

/-- One row of `MIFFLIN_ST_JEOR_COEFFICIENTS` (`constants.ts`). -/
structure MifflinCoefficients where
  weight : ℚ
  height : ℚ
  age : ℚ
  constant : ℚ
  deriving DecidableEq, Repr

/-- The property names a plain JavaScript object literal inherits from
`Object.prototype`: indexing the coefficient table with one of these strings
returns the inherited function/object (truthy) rather than `undefined`. -/
def OBJECT_PROTOTYPE_KEYS : List String :=
  ["constructor", "hasOwnProperty", "isPrototypeOf", "propertyIsEnumerable",
   "toLocaleString", "toString", "valueOf", "__defineGetter__", "__defineSetter__",
   "__lookupGetter__", "__lookupSetter__", "__proto__"]

/-- The three outcomes of `MIFFLIN_ST_JEOR_COEFFICIENTS[sex]` in JavaScript:
an own data property (a coefficients row), a truthy member inherited from
`Object.prototype` (whose `.weight`/`.height`/`.age`/`.constant` are all
`undefined`), or `undefined` (a genuine miss). -/
inductive MifflinLookup where
  | found (coeffs : MifflinCoefficients)
  | inherited
  | missing
  deriving DecidableEq, Repr

/-- `MIFFLIN_ST_JEOR_COEFFICIENTS` (`constants.ts`): a lookup keyed by the
runtime (string) value of `Sex`. The object literal has own keys `"Male"` and
`"Female"`; any `Object.prototype` property name yields a truthy inherited
member; every other key misses (`undefined`). -/
def MIFFLIN_ST_JEOR_COEFFICIENTS (sex : String) : MifflinLookup :=
  if sex = "Male" then .found ⟨10, 6.25, 5, 5⟩
  else if sex = "Female" then .found ⟨10, 6.25, 5, -161⟩
  else if sex ∈ OBJECT_PROTOTYPE_KEYS then .inherited
  else .missing

/-- A macro split (`constants.ts` `DEFAULT_MACRO_SPLIT_*`). -/
structure MacroSplit where
  proteinRatio : ℚ
  carbRatio : ℚ
  fatRatio : ℚ
  deriving DecidableEq, Repr

def DEFAULT_MACRO_SPLIT_GENERAL : MacroSplit := ⟨0.3, 0.4, 0.3⟩

def DEFAULT_MACRO_SPLIT_MUSCLE_GAIN : MacroSplit := ⟨0.35, 0.45, 0.2⟩

def DEFAULT_MACRO_SPLIT_WEIGHT_LOSS : MacroSplit := ⟨0.4, 0.3, 0.3⟩

def DEFAULT_MACRO_SPLIT_KETO : MacroSplit := ⟨0.25, 0.05, 0.7⟩

def PROTEIN_KCAL_PER_GRAM : ℚ := 4

def CARBS_KCAL_PER_GRAM : ℚ := 4

def FAT_KCAL_PER_GRAM : ℚ := 9

/-! ## Nutrition calculator (`services/nutritionCalculator.ts`) -/

/-- `calculateBMR` (`nutritionCalculator.ts`): Mifflin–St Jeor. The
`if (!coeffs) throw` guard fires only when the lookup is `undefined` (falsy),
modelled as `Except.error`. A truthy member inherited from `Object.prototype`
passes the guard; its coefficient fields are all `undefined`, the arithmetic
is `NaN` and `Math.round(NaN)` is `NaN` — modelled as `.ok none`, a normal
return carrying the JavaScript non-number. -/
def calculateBMR (details : PersonalDetails) : Except String (Option ℤ) :=
  match MIFFLIN_ST_JEOR_COEFFICIENTS details.sex with
  | .missing => .error "Invalid sex provided for BMR calculation."
  | .inherited => .ok none
  | .found coeffs =>
      .ok (some (round ((coeffs.weight * details.currentWeightKg) +
                        (coeffs.height * details.heightCm) -
                        (coeffs.age * details.age) +
                        coeffs.constant)))

/-- The macro-split selection step of `suggestMacros`
(`nutritionCalculator.ts`, the `planDesc` `if`/`else if` chain). -/
def selectSplit (planDescription : String) : MacroSplit :=
  let planDesc := jsToLower planDescription
  if strIncludes planDesc "muscle" || strIncludes planDesc "gain" then
    DEFAULT_MACRO_SPLIT_MUSCLE_GAIN
  else if strIncludes planDesc "keto" || strIncludes planDesc "low carb" then
    DEFAULT_MACRO_SPLIT_KETO
  else if strIncludes planDesc "lose weight" || strIncludes planDesc "fat loss"
          || strIncludes planDesc "cut" then
    DEFAULT_MACRO_SPLIT_WEIGHT_LOSS
  else
    DEFAULT_MACRO_SPLIT_GENERAL

/-- `suggestMacros` (`nutritionCalculator.ts`). -/
def suggestMacros (tdee : ℚ) (goals : UserGoals) (currentWeightKg : ℚ) :
    MacroNutrients :=
  let calories0 : ℚ := tdee
  let weightDiff := goals.targetWeightKg - currentWeightKg
  let calories1 : ℚ :=
    if weightDiff < -1 then calories0 - 500
    else if weightDiff > 1 then calories0 + 300
    else calories0
  let calories : ℚ := max 1200 calories1
  let split := selectSplit goals.planDescription
  let proteinGrams : ℤ := round ((calories * split.proteinRatio) / PROTEIN_KCAL_PER_GRAM)
  let carbsGrams : ℤ := round ((calories * split.carbRatio) / CARBS_KCAL_PER_GRAM)
  let fatGrams : ℤ := round ((calories * split.fatRatio) / FAT_KCAL_PER_GRAM)
  let calculatedCalories : ℚ :=
    (proteinGrams : ℚ) * PROTEIN_KCAL_PER_GRAM +
    (carbsGrams : ℚ) * CARBS_KCAL_PER_GRAM +
    (fatGrams : ℚ) * FAT_KCAL_PER_GRAM
  { calories := (round calculatedCalories : ℤ)
    protein := (proteinGrams : ℚ)
    carbs := (carbsGrams : ℚ)
    fat := (fatGrams : ℚ) }

/-- The `reduce` callback of `sumFoodEntryMacros` (`nutritionCalculator.ts`).
`entry.quantity || 1` yields 1 exactly when the quantity is falsy (0 for a
rational model); `entry.calories || 0` etc. are the identity on numbers. -/
def sumFoodEntryStep (acc : MacroNutrients) (entry : FoodEntry) : MacroNutrients :=
  let quantity : ℚ := if entry.quantity = 0 then 1 else entry.quantity
  { protein := acc.protein + entry.protein * quantity
    carbs := acc.carbs + entry.carbs * quantity
    fat := acc.fat + entry.fat * quantity
    calories := acc.calories + entry.calories * quantity }

/-- `sumFoodEntryMacros` (`nutritionCalculator.ts`): a `reduce` of
`sumFoodEntryStep` from the all-zero accumulator. -/
def sumFoodEntryMacros (entries : List FoodEntry) : MacroNutrients :=
  entries.foldl sumFoodEntryStep ⟨0, 0, 0, 0⟩

/-! ## Refeed effective goals (`FoodLogger`, `determineEffectiveGoals`) -/

/-- `determineEffectiveGoals` (FoodLogger component). The closure reads
`userProfile.dietaryPreferences.interestedInRefeedDays` (here `refeedEnabled`),
`userProfile.calculatedNutrition.tdee` (here `tdee`) and
`userProfile.targetMacros` (here `targetMacros`); they are explicit parameters
in this embedding. The `userProfile === null` early return is outside the
scope modelled here (the profile is present whenever the ledger runs). -/
def determineEffectiveGoals (isRefeed : Bool) (refeedEnabled : Bool)
    (tdee : ℚ) (targetMacros : MacroNutrients) : MacroNutrients :=
  if isRefeed && refeedEnabled then
    let refeedCalories : ℤ := round (tdee * 1.15)
    let calorieRatio : ℚ :=
      if targetMacros.calories > 0 then (refeedCalories : ℚ) / targetMacros.calories
      else 1
    { calories := (refeedCalories : ℚ)
      protein := (round (targetMacros.protein * calorieRatio) : ℤ)
      carbs := (round (targetMacros.carbs * calorieRatio) : ℤ)
      fat := (round (targetMacros.fat * calorieRatio) : ℤ) }
  else targetMacros

/-! ## Fasting timer state machine (`types.ts`, `constants.ts`,
`components/IFTimerDisplay.tsx`)

Timestamps are epoch milliseconds (`ℤ`); the optional ISO-string fields of
`FastingTimerState` are `Option ℤ`. Protocol hours are `Option ℤ`: every hour
value this program constructs is an integer (the 16:8 / 18:6 / custom-default
tables and `parseInt` results). Each handler is a pure function of the previous
state and the sampled current time `now`; the source reads `new Date()` /
`Date.now()` once per handler invocation up to sub-millisecond jitter, which the
single `now` parameter abstracts. -/

inductive TimerStatus where
  | NOT_ACTIVE
  | ACTIVE
  | PAUSED
  deriving DecidableEq, Repr

inductive FastingPhase where
  | FASTING
  | EATING
  deriving DecidableEq, Repr

inductive IFProtocolType where
  | SIXTEEN_EIGHT
  | EIGHTEEN_SIX
  | CUSTOM
  deriving DecidableEq, Repr

/-- `IFProtocol` (`types.ts`). -/
structure IFProtocol where
  type : IFProtocolType
  fastingHours : Option ℤ
  eatingHours : Option ℤ
  deriving DecidableEq, Repr

/-- `FastingTimerState` (`types.ts`). -/
structure FastingTimerState where
  status : TimerStatus
  currentPhase : FastingPhase
  startTime : Option ℤ
  endTime : Option ℤ
  phaseStartTime : Option ℤ
  pausedDurationMs : ℤ
  lastPauseTime : Option ℤ
  protocol : IFProtocol
  deriving DecidableEq, Repr

/-- `DEFAULT_IF_PROTOCOLS` (`constants.ts`). -/
def DEFAULT_IF_PROTOCOLS (t : IFProtocolType) : IFProtocol :=
  match t with
  | .SIXTEEN_EIGHT => ⟨.SIXTEEN_EIGHT, some 16, some 8⟩
  | .EIGHTEEN_SIX => ⟨.EIGHTEEN_SIX, some 18, some 6⟩
  | .CUSTOM => ⟨.CUSTOM, some 12, some 12⟩

/-- `INITIAL_FASTING_TIMER_STATE` (`constants.ts`). The `protocol || 16:8`
fallback only fires for a missing argument; every call site passes a protocol
object, so the parameter is modelled as always present. -/
def INITIAL_FASTING_TIMER_STATE (protocol : IFProtocol) : FastingTimerState :=
  { status := .NOT_ACTIVE
    currentPhase := .FASTING
    startTime := none
    endTime := none
    phaseStartTime := none
    pausedDurationMs := 0
    lastPauseTime := none
    protocol := protocol }

/-- JavaScript `x || 0` on an optional number whose present values are used as
hour counts: `undefined` and `0` both give `0`. -/
def orZero (x : Option ℤ) : ℤ :=
  match x with
  | none => 0
  | some n => n

/-- `handleStartFast` (`IFTimerDisplay.tsx`): only reachable from the
Start-Fast button, rendered when the status is `NOT_ACTIVE`. -/
def handleStartFast (prev : FastingTimerState) (now : ℤ) : FastingTimerState :=
  let fastingDurationMs := orZero prev.protocol.fastingHours * 60 * 60 * 1000
  { status := .ACTIVE
    currentPhase := .FASTING
    startTime := some now
    endTime := some (now + fastingDurationMs)
    phaseStartTime := some now
    pausedDurationMs := 0
    lastPauseTime := none
    protocol := prev.protocol }

/-- The state update performed by `calculateRemainingTime`
(`IFTimerDisplay.tsx` lines 19–45) on each sampling tick: no change unless the
status is `ACTIVE` and `endTime` is set; when `end - now <= 0` the phase flips
via the `setTimerState` callback. -/
def sampleTick (prev : FastingTimerState) (now : ℤ) : FastingTimerState :=
  if prev.status = .ACTIVE then
    match prev.endTime with
    | none => prev
    | some endMs =>
        if endMs - now ≤ 0 then
          let newPhase : FastingPhase :=
            if prev.currentPhase = .FASTING then .EATING else .FASTING
          let phaseDurationHours : ℤ :=
            if newPhase = .FASTING then orZero prev.protocol.fastingHours
            else orZero prev.protocol.eatingHours
          let phaseDurationMs := phaseDurationHours * 60 * 60 * 1000
          { prev with
            currentPhase := newPhase
            startTime := some now
            endTime := some (now + phaseDurationMs)
            phaseStartTime := some now
            pausedDurationMs := 0 }
        else prev
  else prev

/-- `handlePauseResumeFast` (`IFTimerDisplay.tsx` lines 109–132): pauses an
`ACTIVE` timer, resumes a `PAUSED` one (shifting `endTime` by the length of the
pause segment), and is the identity otherwise — including the defensive
early-return when a paused state misses `lastPauseTime`, `endTime` or
`phaseStartTime`. -/
def handlePauseResumeFast (prev : FastingTimerState) (now : ℤ) : FastingTimerState :=
  if prev.status = .ACTIVE then
    { prev with status := .PAUSED, lastPauseTime := some now }
  else if prev.status = .PAUSED then
    match prev.lastPauseTime, prev.endTime, prev.phaseStartTime with
    | some lastPause, some endMs, some _ =>
        let pauseMsThisSegment := now - lastPause
        let newPausedDurationMsTotal := prev.pausedDurationMs + pauseMsThisSegment
        let newEndTime := endMs + pauseMsThisSegment
        { prev with
          status := .ACTIVE
          endTime := some newEndTime
          pausedDurationMs := newPausedDurationMsTotal
          lastPauseTime := none }
    | _, _, _ => prev
  else prev

/-- `handleCustomHoursChange` (`IFTimerDisplay.tsx` lines 152–166), restricted
to its `setTimerState` update. `field` is `true` for `'customFastingHours'`
and `false` for `'customEatingHours'`. -/
def handleCustomHoursChange (field : Bool) (value : String)
    (prev : FastingTimerState) : FastingTimerState :=
  let hours : ℤ :=
    match parseIntJS value with
    | none => 0
    | some n => n
  { prev with
    protocol :=
      { type := .CUSTOM
        fastingHours := some (if field then hours else orZero prev.protocol.fastingHours)
        eatingHours := some (if field then orZero prev.protocol.eatingHours else hours) } }

/-! ## Spec-side definitions used for refinement comparisons -/

/-- Modelled from the spec: the daily-totals formula of §4.4 — the sum of
`entry.field * entry.quantity` over all entries, with no special case for a
zero quantity. Compared against `sumFoodEntryMacros`. -/
def totalsSpec (entries : List FoodEntry) : MacroNutrients :=
  { protein := (entries.map (fun e => e.protein * e.quantity)).sum
    carbs := (entries.map (fun e => e.carbs * e.quantity)).sum
    fat := (entries.map (fun e => e.fat * e.quantity)).sum
    calories := (entries.map (fun e => e.calories * e.quantity)).sum }

/-! ## Shared helper lemmas -/

/-- Any rounded three-way split whose ratios sum to 1 reconstructs at least the
target calories minus 17/2 (each of the three roundings loses less than half a
gram, weighted 4/4/9 kcal). -/
theorem roundedSplitSum_ge (cal rp rc rf : ℚ) (hsum : rp + rc + rf = 1) :
    cal - 17/2 ≤ ((round (cal * rp / 4) : ℤ) : ℚ) * 4 +
      ((round (cal * rc / 4) : ℤ) : ℚ) * 4 + ((round (cal * rf / 9) : ℤ) : ℚ) * 9 := by
  have h1 := sub_half_lt_round (cal * rp / 4)
  have h2 := sub_half_lt_round (cal * rc / 4)
  have h3 := sub_half_lt_round (cal * rf / 9)
  have hc : cal * rp + cal * rc + cal * rf = cal := by
    rw [← mul_add, ← mul_add, hsum, mul_one]
  linarith

/-- Unrolling the `reduce` of `sumFoodEntryMacros` from an arbitrary
accumulator: each component is the accumulator plus the sum of the
falsy-defaulted contributions. -/
theorem foldl_sumFoodEntryStep (es : List FoodEntry) (acc : MacroNutrients) :
    es.foldl sumFoodEntryStep acc =
      { protein := acc.protein +
          (es.map fun e => e.protein * (if e.quantity = 0 then 1 else e.quantity)).sum
        carbs := acc.carbs +
          (es.map fun e => e.carbs * (if e.quantity = 0 then 1 else e.quantity)).sum
        fat := acc.fat +
          (es.map fun e => e.fat * (if e.quantity = 0 then 1 else e.quantity)).sum
        calories := acc.calories +
          (es.map fun e => e.calories * (if e.quantity = 0 then 1 else e.quantity)).sum } := by
  induction es generalizing acc with
  | nil => simp
  | cons e es ih =>
      rw [List.foldl_cons, ih]
      simp only [sumFoodEntryStep, List.map_cons, List.sum_cons, MacroNutrients.mk.injEq]
      refine ⟨by ring, by ring, by ring, by ring⟩

/-! ## Claim theorems -/

/-- C1. Pause/resume preserves remaining time exactly: pausing an `ACTIVE`
state (with its end time and phase start set) at `tp` freezes `endTime` and
records `lastPauseTime = tp`; resuming at a later `tr` adds the pause segment
`tr - tp` to `pausedDurationMs`, shifts `endTime` forward by the same segment,
clears `lastPauseTime` and re-activates — so the remaining time
`endTime - now` immediately after resume equals the remaining time immediately
before the pause. -/
theorem resume_preserves_remaining_time (s : FastingTimerState) (endMs ps tp tr : ℤ)
    (hActive : s.status = .ACTIVE)
    (hEnd : s.endTime = some endMs)
    (hPhase : s.phaseStartTime = some ps)
    (hle : tp ≤ tr) :
    (handlePauseResumeFast s tp).status = .PAUSED ∧
    (handlePauseResumeFast s tp).endTime = some endMs ∧
    (handlePauseResumeFast s tp).lastPauseTime = some tp ∧
    (handlePauseResumeFast (handlePauseResumeFast s tp) tr).status = .ACTIVE ∧
    (handlePauseResumeFast (handlePauseResumeFast s tp) tr).pausedDurationMs =
      s.pausedDurationMs + (tr - tp) ∧
    (handlePauseResumeFast (handlePauseResumeFast s tp) tr).endTime =
      some (endMs + (tr - tp)) ∧
    (handlePauseResumeFast (handlePauseResumeFast s tp) tr).lastPauseTime = none ∧
    (endMs + (tr - tp)) - tr = endMs - tp := by
  have hle2 : tp ≤ tr := hle
  clear hle2
  simp [handlePauseResumeFast, hActive, hEnd, hPhase]
  omega

/-- Witness for C1: a 16-hour fast started at epoch 0, paused after 1 hour and
resumed 2 hours later, ends at `16h + 2h` — remaining time is preserved. -/
theorem resume_preserves_remaining_time_witness :
    (handlePauseResumeFast (handlePauseResumeFast
        (handleStartFast (INITIAL_FASTING_TIMER_STATE (DEFAULT_IF_PROTOCOLS .SIXTEEN_EIGHT)) 0)
        3600000) 10800000).endTime = some (57600000 + (10800000 - 3600000)) :=
  (resume_preserves_remaining_time
    (handleStartFast (INITIAL_FASTING_TIMER_STATE (DEFAULT_IF_PROTOCOLS .SIXTEEN_EIGHT)) 0)
    57600000 0 3600000 10800000 rfl rfl rfl (by norm_num)).2.2.2.2.2.1

/-- C2. Automatic phase flip: sampling an `ACTIVE` state at `now ≥ endTime`
flips the phase, sets `phaseStartTime = now`, sets
`endTime = now + hours(newPhase) * 3600000` with missing hours treated as 0
(`orZero`), and resets `pausedDurationMs` to 0; sampling at `now < endTime`
leaves the state unchanged. -/
theorem sampleTick_phase_flip (s : FastingTimerState) (endMs now : ℤ)
    (hActive : s.status = .ACTIVE)
    (hEnd : s.endTime = some endMs) :
    (now ≥ endMs →
      (sampleTick s now).currentPhase =
        (if s.currentPhase = .FASTING then .EATING else .FASTING) ∧
      (sampleTick s now).phaseStartTime = some now ∧
      (sampleTick s now).endTime = some (now +
        (if s.currentPhase = .FASTING then orZero s.protocol.eatingHours
         else orZero s.protocol.fastingHours) * 3600000) ∧
      (sampleTick s now).pausedDurationMs = 0) ∧
    (now < endMs → sampleTick s now = s) := by
  constructor
  · intro hdue
    have hcond : endMs - now ≤ 0 := by omega
    rcases hp : s.currentPhase with h | h <;>
      simp [sampleTick, hActive, hEnd, hcond, hp] <;> ring
  · intro hnot
    have hcond : ¬(endMs - now ≤ 0) := by omega
    simp [sampleTick, hActive, hEnd, hcond]

/-- Witness for C2: a fast with `fastingHours = 0` started at `t = 100` flips
to Eating on the very next sample, with a fresh 8-hour eating window and
`pausedDurationMs = 0`. -/
theorem sampleTick_phase_flip_witness :
    (sampleTick (handleStartFast (INITIAL_FASTING_TIMER_STATE
        ⟨.CUSTOM, some 0, some 8⟩) 100) 100).currentPhase = .EATING ∧
    (sampleTick (handleStartFast (INITIAL_FASTING_TIMER_STATE
        ⟨.CUSTOM, some 0, some 8⟩) 100) 100).endTime = some (100 + 8 * 3600000) ∧
    (sampleTick (handleStartFast (INITIAL_FASTING_TIMER_STATE
        ⟨.CUSTOM, some 0, some 8⟩) 100) 100).pausedDurationMs = 0 := by
  have h := (sampleTick_phase_flip
    (handleStartFast (INITIAL_FASTING_TIMER_STATE ⟨.CUSTOM, some 0, some 8⟩) 100)
    100 100 rfl rfl).1 (by norm_num)
  exact ⟨h.1, h.2.2.1, h.2.2.2⟩

/-- C3. Macro/calorie consistency: for every tdee, goals and current weight,
the `suggestMacros` output satisfies
`round(protein*4 + carbs*4 + fat*9) = calories`, because the final calorie
figure is recomputed from the rounded gram values. -/
theorem suggestMacros_macro_calorie_consistency (tdee : ℚ) (goals : UserGoals) (w : ℚ) :
    ((round ((suggestMacros tdee goals w).protein * 4 + (suggestMacros tdee goals w).carbs * 4 +
      (suggestMacros tdee goals w).fat * 9) : ℤ) : ℚ) = (suggestMacros tdee goals w).calories := by
  simp only [suggestMacros, PROTEIN_KCAL_PER_GRAM, CARBS_KCAL_PER_GRAM, FAT_KCAL_PER_GRAM]

/-- Counterexample to C4 as stated: with `tdee = 1200`, a "keto" plan and no
weight delta, the clamped intermediate target is 1200 but the returned
`calories`, recomputed from the rounded grams (75 g, 15 g, 93 g), is
1197 < 1200. -/
theorem suggestMacros_calorie_floor_counterexample :
    (suggestMacros 1200 ⟨70, "2025-01-01", "keto"⟩ 70).calories = 1197 ∧
    ¬((1197 : ℚ) ≥ 1200) := by
  have hs : selectSplit "keto" = DEFAULT_MACRO_SPLIT_KETO := rfl
  constructor
  · norm_num [suggestMacros, hs, round_eq, PROTEIN_KCAL_PER_GRAM,
      CARBS_KCAL_PER_GRAM, FAT_KCAL_PER_GRAM, DEFAULT_MACRO_SPLIT_KETO]
  · norm_num

/-- C4 (amended). Calorie floor: the 1200-kcal clamp applies to the
pre-rounding calorie target; the returned `calories`, recomputed from rounded
grams, can lose up to 8.5 kcal and is guaranteed to be at least 1192 for every
tdee, goals and current weight. -/
theorem suggestMacros_calorie_floor_amended (tdee : ℚ) (goals : UserGoals) (w : ℚ) :
    (suggestMacros tdee goals w).calories ≥ 1192 := by
  have hsum : (selectSplit goals.planDescription).proteinRatio +
      (selectSplit goals.planDescription).carbRatio +
      (selectSplit goals.planDescription).fatRatio = 1 := by
    simp only [selectSplit]
    split_ifs <;>
      norm_num [DEFAULT_MACRO_SPLIT_GENERAL, DEFAULT_MACRO_SPLIT_MUSCLE_GAIN,
        DEFAULT_MACRO_SPLIT_WEIGHT_LOSS, DEFAULT_MACRO_SPLIT_KETO]
  simp only [suggestMacros, PROTEIN_KCAL_PER_GRAM, CARBS_KCAL_PER_GRAM, FAT_KCAL_PER_GRAM]
  set cal : ℚ := max 1200 (if goals.targetWeightKg - w < -1 then tdee - 500
    else if goals.targetWeightKg - w > 1 then tdee + 300 else tdee) with hcal
  have hge : (1200 : ℚ) ≤ cal := le_max_left _ _
  have hb := roundedSplitSum_ge cal (selectSplit goals.planDescription).proteinRatio
    (selectSplit goals.planDescription).carbRatio
    (selectSplit goals.planDescription).fatRatio hsum
  have h2 : (1192 : ℤ) ≤ round
      (((round (cal * (selectSplit goals.planDescription).proteinRatio / 4) : ℤ) : ℚ) * 4 +
       ((round (cal * (selectSplit goals.planDescription).carbRatio / 4) : ℤ) : ℚ) * 4 +
       ((round (cal * (selectSplit goals.planDescription).fatRatio / 9) : ℤ) : ℚ) * 9) := by
    rw [round_eq]
    exact Int.le_floor.mpr (by push_cast; linarith)
  exact_mod_cast h2

/-- Counterexample to C5 as stated: an entry with `quantity = 0` should
contribute `field * 0 = 0` by the claim, but `entry.quantity || 1` makes it
contribute its full per-serving values, so `sumFoodEntryMacros` disagrees with
the claimed per-quantity sum (`totalsSpec`). -/
theorem sumFoodEntryMacros_zero_quantity_counterexample :
    sumFoodEntryMacros [⟨"e1", "oatmeal", 100, 10, 20, 30, "1 cup", 0, "t0", "t0"⟩] ≠
      totalsSpec [⟨"e1", "oatmeal", 100, 10, 20, 30, "1 cup", 0, "t0", "t0"⟩] := by
  simp [sumFoodEntryMacros, sumFoodEntryStep, totalsSpec, List.foldl, MacroNutrients.mk.injEq]

/-- C5 (amended). Daily totals: for every list of food entries each with
`quantity > 0`, `sumFoodEntryMacros` returns, for each of
calories/protein/carbs/fat, the sum over all entries of
`entry.field * entry.quantity` (`totalsSpec`); for the empty list all four
totals are zero. (An entry with `quantity = 0` is instead counted with the
falsy-default quantity 1.) -/
theorem sumFoodEntryMacros_pos_quantities_spec (entries : List FoodEntry)
    (h : ∀ e ∈ entries, 0 < e.quantity) :
    sumFoodEntryMacros entries = totalsSpec entries ∧
    sumFoodEntryMacros [] = ⟨0, 0, 0, 0⟩ := by
  refine ⟨?_, rfl⟩
  have hq : ∀ e ∈ entries, (if e.quantity = 0 then 1 else e.quantity) = e.quantity := by
    intro e he
    have := h e he
    simp [ne_of_gt this]
  rw [sumFoodEntryMacros, foldl_sumFoodEntryStep, totalsSpec]
  simp only [MacroNutrients.mk.injEq, zero_add]
  refine ⟨?_, ?_, ?_, ?_⟩ <;>
    exact congrArg List.sum (List.map_congr_left fun e he => by rw [hq e he])

/-- Witness for C5: a single entry with quantity 2 is summed as
`2 × (200, 4, 45, 1)`. -/
theorem sumFoodEntryMacros_pos_quantities_spec_witness :
    (∀ e ∈ [(⟨"e1", "rice", 200, 4, 45, 1, "1 cup", 2, "t0", "t0"⟩ : FoodEntry)],
      0 < e.quantity) ∧
    sumFoodEntryMacros [⟨"e1", "rice", 200, 4, 45, 1, "1 cup", 2, "t0", "t0"⟩] =
      totalsSpec [⟨"e1", "rice", 200, 4, 45, 1, "1 cup", 2, "t0", "t0"⟩] :=
  ⟨by norm_num, (sumFoodEntryMacros_pos_quantities_spec _ (by norm_num)).1⟩

/-- Counterexample to C6 as stated: the code guards the refeed ratio with
`targetMacros.calories > 0`, not `= 0`; at `targetMacros.calories = -2000` the
code keeps protein at `round(150 * 1) = 150`, while the claim's formula
`round(150 * round(2000*1.15)/(-2000))` gives `-172`. -/
theorem determineEffectiveGoals_nonpos_counterexample :
    (determineEffectiveGoals true true 2000 ⟨150, 200, 67, -2000⟩).protein = 150 ∧
    ((round ((150 : ℚ) * (((round ((2000 : ℚ) * 1.15) : ℤ) : ℚ) / (-2000 : ℚ))) : ℤ) : ℚ) = -172 ∧
    (150 : ℚ) ≠ -172 := by
  refine ⟨?_, ?_, by norm_num⟩
  · norm_num [determineEffectiveGoals, round_eq]
  · norm_num [round_eq]

/-- C6 (amended). Refeed goal adjustment: the effective-goals computation
returns `targetMacros` unchanged unless both flags hold; when both hold it
returns `calories = round(tdee*1.15)` and each macro scaled by
`ratio = round(tdee*1.15)/targetMacros.calories`, with `ratio = 1` whenever
`targetMacros.calories ≤ 0` (the code tests `calories > 0`, not `calories ≠ 0`). -/
theorem determineEffectiveGoals_characterization (isRefeed refeedEnabled : Bool)
    (tdee : ℚ) (tm : MacroNutrients) :
    (¬(isRefeed = true ∧ refeedEnabled = true) →
        determineEffectiveGoals isRefeed refeedEnabled tdee tm = tm) ∧
    (isRefeed = true → refeedEnabled = true →
      determineEffectiveGoals isRefeed refeedEnabled tdee tm =
        { protein := ((round (tm.protein * (if tm.calories > 0
              then ((round (tdee * 1.15) : ℤ) : ℚ) / tm.calories else 1)) : ℤ) : ℚ)
          carbs := ((round (tm.carbs * (if tm.calories > 0
              then ((round (tdee * 1.15) : ℤ) : ℚ) / tm.calories else 1)) : ℤ) : ℚ)
          fat := ((round (tm.fat * (if tm.calories > 0
              then ((round (tdee * 1.15) : ℤ) : ℚ) / tm.calories else 1)) : ℤ) : ℚ)
          calories := ((round (tdee * 1.15) : ℤ) : ℚ) }) := by
  constructor
  · intro h
    rcases Bool.eq_false_or_eq_true isRefeed with h1 | h1 <;>
      rcases Bool.eq_false_or_eq_true refeedEnabled with h2 | h2 <;>
      simp_all [determineEffectiveGoals]
  · intro h1 h2
    subst h1; subst h2
    simp [determineEffectiveGoals]

/-- Witness for C6: the spec's own example — `tdee = 2500`,
`targetMacros = (150, 200, 67, 2000)` on an enabled refeed day yields
`(216, 288, 96, 2875)`. -/
theorem determineEffectiveGoals_characterization_witness :
    determineEffectiveGoals true true 2500 ⟨150, 200, 67, 2000⟩ = ⟨216, 288, 96, 2875⟩ := by
  have h := (determineEffectiveGoals_characterization true true 2500
    ⟨150, 200, 67, 2000⟩).2 rfl rfl
  rw [h]
  norm_num [round_eq]

/-- C7. Macro-split selection precedence: `selectSplit` (the split-selection
step of `suggestMacros`) picks Muscle-Gain iff the lowercased plan contains
"muscle" or "gain"; else Keto iff it contains "keto" or "low carb"; else
Weight-Loss iff it contains "lose weight", "fat loss" or "cut"; else General —
and "Lose weight and tone up" selects the Weight-Loss split. -/
theorem selectSplit_precedence (d : String) :
    (selectSplit d = DEFAULT_MACRO_SPLIT_MUSCLE_GAIN ↔
      (strIncludes (jsToLower d) "muscle" = true ∨ strIncludes (jsToLower d) "gain" = true)) ∧
    (selectSplit d = DEFAULT_MACRO_SPLIT_KETO ↔
      (¬(strIncludes (jsToLower d) "muscle" = true ∨ strIncludes (jsToLower d) "gain" = true) ∧
        (strIncludes (jsToLower d) "keto" = true ∨ strIncludes (jsToLower d) "low carb" = true))) ∧
    (selectSplit d = DEFAULT_MACRO_SPLIT_WEIGHT_LOSS ↔
      (¬(strIncludes (jsToLower d) "muscle" = true ∨ strIncludes (jsToLower d) "gain" = true) ∧
        ¬(strIncludes (jsToLower d) "keto" = true ∨ strIncludes (jsToLower d) "low carb" = true) ∧
        (strIncludes (jsToLower d) "lose weight" = true ∨
          strIncludes (jsToLower d) "fat loss" = true ∨
          strIncludes (jsToLower d) "cut" = true))) ∧
    (selectSplit d = DEFAULT_MACRO_SPLIT_GENERAL ↔
      (¬(strIncludes (jsToLower d) "muscle" = true ∨ strIncludes (jsToLower d) "gain" = true) ∧
        ¬(strIncludes (jsToLower d) "keto" = true ∨ strIncludes (jsToLower d) "low carb" = true) ∧
        ¬(strIncludes (jsToLower d) "lose weight" = true ∨
          strIncludes (jsToLower d) "fat loss" = true ∨
          strIncludes (jsToLower d) "cut" = true))) ∧
    selectSplit "Lose weight and tone up" = DEFAULT_MACRO_SPLIT_WEIGHT_LOSS := by
  have hMK : DEFAULT_MACRO_SPLIT_MUSCLE_GAIN ≠ DEFAULT_MACRO_SPLIT_KETO := by
    simp [DEFAULT_MACRO_SPLIT_MUSCLE_GAIN, DEFAULT_MACRO_SPLIT_KETO, MacroSplit.mk.injEq]
    norm_num
  have hMW : DEFAULT_MACRO_SPLIT_MUSCLE_GAIN ≠ DEFAULT_MACRO_SPLIT_WEIGHT_LOSS := by
    simp [DEFAULT_MACRO_SPLIT_MUSCLE_GAIN, DEFAULT_MACRO_SPLIT_WEIGHT_LOSS, MacroSplit.mk.injEq]
    norm_num
  have hMG : DEFAULT_MACRO_SPLIT_MUSCLE_GAIN ≠ DEFAULT_MACRO_SPLIT_GENERAL := by
    simp [DEFAULT_MACRO_SPLIT_MUSCLE_GAIN, DEFAULT_MACRO_SPLIT_GENERAL, MacroSplit.mk.injEq]
    norm_num
  have hKW : DEFAULT_MACRO_SPLIT_KETO ≠ DEFAULT_MACRO_SPLIT_WEIGHT_LOSS := by
    simp [DEFAULT_MACRO_SPLIT_KETO, DEFAULT_MACRO_SPLIT_WEIGHT_LOSS, MacroSplit.mk.injEq]
    norm_num
  have hKG : DEFAULT_MACRO_SPLIT_KETO ≠ DEFAULT_MACRO_SPLIT_GENERAL := by
    simp [DEFAULT_MACRO_SPLIT_KETO, DEFAULT_MACRO_SPLIT_GENERAL, MacroSplit.mk.injEq]
    norm_num
  have hWG : DEFAULT_MACRO_SPLIT_WEIGHT_LOSS ≠ DEFAULT_MACRO_SPLIT_GENERAL := by
    simp [DEFAULT_MACRO_SPLIT_WEIGHT_LOSS, DEFAULT_MACRO_SPLIT_GENERAL, MacroSplit.mk.injEq]
    norm_num
  refine ⟨?_, ?_, ?_, ?_, rfl⟩ <;>
  · simp only [selectSplit]
    split_ifs with h1 h2 h3 <;>
      simp_all [Bool.or_eq_true, hMK, hMW, hMG, hKW, hKG, hWG,
        hMK.symm, hMW.symm, hMG.symm, hKW.symm, hKG.symm, hWG.symm, or_assoc]

/-- Counterexample to C8 as stated: `"toString"` is not a recognized enum
value, yet `calculateBMR` does not raise InvalidInput for it — the object
literal inherits `Object.prototype.toString`, a truthy value that passes the
`if (!coeffs) throw` guard, so the call returns normally (with `NaN`, here
`.ok none`). -/
theorem calculateBMR_prototype_counterexample :
    ("toString" ≠ "Male" ∧ "toString" ≠ "Female") ∧
    calculateBMR ⟨30, "toString", 175, 70⟩ = .ok none := by
  refine ⟨⟨by simp, by simp⟩, rfl⟩

/-- C8 (amended). BMR computation and failure: `calculateBMR` fails (raises
InvalidInput) if and only if the sex value is neither a recognized enum value
nor an `Object.prototype` property name; for a prototype property name the
truthy inherited member passes the guard and the call returns `NaN` (`.ok
none`) instead of failing; for `"Male"` (resp. `"Female"`) it returns
`round(10*weight + 6.25*height - 5*age + 5)` (resp. `- 161`). -/
theorem calculateBMR_characterization (d : PersonalDetails) :
    ((∃ msg, calculateBMR d = .error msg) ↔
      (d.sex ≠ "Male" ∧ d.sex ≠ "Female" ∧ d.sex ∉ OBJECT_PROTOTYPE_KEYS)) ∧
    (d.sex ≠ "Male" → d.sex ≠ "Female" → d.sex ∈ OBJECT_PROTOTYPE_KEYS →
      calculateBMR d = .ok none) ∧
    (d.sex = "Male" → calculateBMR d =
      .ok (some (round (10 * d.currentWeightKg + 6.25 * d.heightCm - 5 * d.age + 5)))) ∧
    (d.sex = "Female" → calculateBMR d =
      .ok (some (round (10 * d.currentWeightKg + 6.25 * d.heightCm - 5 * d.age + (-161))))) := by
  refine ⟨⟨?_, ?_⟩, ?_, ?_, ?_⟩
  · rintro ⟨msg, hmsg⟩
    by_cases h1 : d.sex = "Male"
    · exfalso
      simp [calculateBMR, MIFFLIN_ST_JEOR_COEFFICIENTS, h1] at hmsg
    by_cases h2 : d.sex = "Female"
    · exfalso
      simp [calculateBMR, MIFFLIN_ST_JEOR_COEFFICIENTS, h1, h2] at hmsg
    by_cases h3 : d.sex ∈ OBJECT_PROTOTYPE_KEYS
    · exfalso
      simp [calculateBMR, MIFFLIN_ST_JEOR_COEFFICIENTS, h1, h2, h3] at hmsg
    · exact ⟨h1, h2, h3⟩
  · rintro ⟨h1, h2, h3⟩
    exact ⟨"Invalid sex provided for BMR calculation.",
      by simp [calculateBMR, MIFFLIN_ST_JEOR_COEFFICIENTS, h1, h2, h3]⟩
  · intro h1 h2 h3
    simp [calculateBMR, MIFFLIN_ST_JEOR_COEFFICIENTS, h1, h2, h3]
  · intro h
    simp [calculateBMR, MIFFLIN_ST_JEOR_COEFFICIENTS, h]
  · intro h
    simp [calculateBMR, MIFFLIN_ST_JEOR_COEFFICIENTS, h]

/-- Witness for C8: the spec's scenario — a 30-year-old male, 175 cm, 70 kg
has BMR 1649 — an unrecognized non-prototype sex value fails, and the
prototype key `"valueOf"` returns `NaN` without failing. -/
theorem calculateBMR_characterization_witness :
    calculateBMR ⟨30, "Male", 175, 70⟩ = .ok (some 1649) ∧
    (∃ msg, calculateBMR ⟨30, "Unknown", 175, 70⟩ = .error msg) ∧
    calculateBMR ⟨30, "valueOf", 175, 70⟩ = .ok none := by
  refine ⟨?_, ?_, ?_⟩
  · have h := (calculateBMR_characterization ⟨30, "Male", 175, 70⟩).2.2.1 rfl
    rw [h]
    norm_num [round_eq]
  · exact (calculateBMR_characterization ⟨30, "Unknown", 175, 70⟩).1.mpr
      ⟨by simp, by simp, by simp [OBJECT_PROTOTYPE_KEYS]⟩
  · exact (calculateBMR_characterization ⟨30, "valueOf", 175, 70⟩).2.1
      (by simp) (by simp) (by simp [OBJECT_PROTOTYPE_KEYS])

/-- Counterexample to C9 as stated: the custom-hours handler does no `≥ 0`
validation — the input string `"-5"` parses to `-5` and is stored as a
negative `fastingHours`. -/
theorem handleCustomHoursChange_negative_counterexample :
    (handleCustomHoursChange true "-5"
      (INITIAL_FASTING_TIMER_STATE (DEFAULT_IF_PROTOCOLS .SIXTEEN_EIGHT))).protocol.fastingHours =
      some (-5) ∧ ¬((-5 : ℤ) ≥ 0) := by
  constructor
  · rfl
  · norm_num

/-- C9 (amended). Custom protocol hours: every custom-hours edit sets the
protocol type to Custom, the edited field to `parseInt(value)` with unparsable
input mapped to 0, and carries the other field over (defaulting an unset value
to 0); the fields are integers but are not validated to be non-negative —
non-negativity holds only when the parsed value and the prior hours are
themselves non-negative. -/
theorem handleCustomHoursChange_characterization (field : Bool) (value : String)
    (prev : FastingTimerState) :
    (handleCustomHoursChange field value prev).protocol.type = .CUSTOM ∧
    (handleCustomHoursChange field value prev).protocol.fastingHours =
      some (if field then (parseIntJS value).getD 0 else orZero prev.protocol.fastingHours) ∧
    (handleCustomHoursChange field value prev).protocol.eatingHours =
      some (if field then orZero prev.protocol.eatingHours else (parseIntJS value).getD 0) ∧
    (parseIntJS value = none → (parseIntJS value).getD 0 = 0) ∧
    (0 ≤ (parseIntJS value).getD 0 → 0 ≤ orZero prev.protocol.fastingHours →
      0 ≤ orZero prev.protocol.eatingHours →
      0 ≤ ((handleCustomHoursChange field value prev).protocol.fastingHours).getD 0 ∧
      0 ≤ ((handleCustomHoursChange field value prev).protocol.eatingHours).getD 0) := by
  have hh : (match parseIntJS value with | none => (0 : ℤ) | some n => n) =
      (parseIntJS value).getD 0 := by
    cases parseIntJS value <;> rfl
  refine ⟨rfl, ?_, ?_, ?_, ?_⟩
  · simp [handleCustomHoursChange, hh]
  · simp [handleCustomHoursChange, hh]
  · intro h; simp [h]
  · intro h1 h2 h3
    cases field <;> simp [handleCustomHoursChange, hh] <;> omega

/-- Witness for C9: editing the fasting field to `"7"` stores `parseInt "7"`,
and with a non-negative parse and non-negative prior hours the result is
non-negative. -/
theorem handleCustomHoursChange_characterization_witness :
    (handleCustomHoursChange true "7"
      (INITIAL_FASTING_TIMER_STATE (DEFAULT_IF_PROTOCOLS .SIXTEEN_EIGHT))).protocol.fastingHours =
      some ((parseIntJS "7").getD 0) ∧
    (0 ≤ ((handleCustomHoursChange true "7"
      (INITIAL_FASTING_TIMER_STATE
        (DEFAULT_IF_PROTOCOLS .SIXTEEN_EIGHT))).protocol.fastingHours).getD 0) := by
  have h := handleCustomHoursChange_characterization true "7"
    (INITIAL_FASTING_TIMER_STATE (DEFAULT_IF_PROTOCOLS .SIXTEEN_EIGHT))
  have hp : parseIntJS "7" = some 7 := rfl
  exact ⟨h.2.1, (h.2.2.2.2 (by rw [hp]; norm_num)
    (by norm_num [orZero, INITIAL_FASTING_TIMER_STATE, DEFAULT_IF_PROTOCOLS])
    (by norm_num [orZero, INITIAL_FASTING_TIMER_STATE, DEFAULT_IF_PROTOCOLS])).1⟩

/-- C10. Frame effect of the automatic flip: when a sample fires the flip
(`now ≥ endTime` on an `ACTIVE` state), the post-flip `startTime` is the flip
instant — the same value as the new `phaseStartTime`, so `startTime` no longer
records the start of the overall timer — and the only fields left unchanged
are `status`, `lastPauseTime` and `protocol`. -/
theorem phase_flip_frame_effect (s : FastingTimerState) (endMs now : ℤ)
    (hActive : s.status = .ACTIVE)
    (hEnd : s.endTime = some endMs)
    (hdue : now ≥ endMs) :
    (sampleTick s now).startTime = some now ∧
    (sampleTick s now).startTime = (sampleTick s now).phaseStartTime ∧
    (sampleTick s now).status = s.status ∧
    (sampleTick s now).lastPauseTime = s.lastPauseTime ∧
    (sampleTick s now).protocol = s.protocol := by
  have hcond : endMs - now ≤ 0 := by omega
  simp [sampleTick, hActive, hEnd, hcond]

/-- Witness for C10: a 1-hour fast started at 0 and sampled at the 2-hour mark
flips with `startTime` rewritten to the flip instant and the protocol kept. -/
theorem phase_flip_frame_effect_witness :
    (sampleTick (handleStartFast (INITIAL_FASTING_TIMER_STATE
        ⟨.CUSTOM, some 1, some 2⟩) 0) 7200000).startTime = some 7200000 ∧
    (sampleTick (handleStartFast (INITIAL_FASTING_TIMER_STATE
        ⟨.CUSTOM, some 1, some 2⟩) 0) 7200000).protocol = ⟨.CUSTOM, some 1, some 2⟩ := by
  have h := phase_flip_frame_effect
    (handleStartFast (INITIAL_FASTING_TIMER_STATE ⟨.CUSTOM, some 1, some 2⟩) 0)
    3600000 7200000 rfl rfl (by norm_num)
  exact ⟨h.1, h.2.2.2.2⟩
